import Mathlib

/-
Verification of src/src/pipeline.py (face-recognition-models).

Shallow embedding: the two classes of the file, `DatasetMapper` and `Pipeline`,
are modelled as Lean structures and pure functions.  External collaborators
(the preprocessor, the model's forward pass, the autograd engine, the optimizer
update, the tensorboard writers, tqdm) are opaque parameters; numeric scalars
(losses, labels, learning rates) are rationals.  Python runtime errors that the
code can raise are modelled explicitly with `PyError`, and `Pipeline.train`
returns its observable state together with an optional error.
-/

namespace FaceRec

/-- Python runtime errors distinguished by this model. -/
inductive PyError where
  | assertionError (msg : String)
  | typeError (msg : String)
  | attributeError (msg : String)
  | zeroDivisionError
  | unboundLocalError (name : String)
deriving DecidableEq, Repr

/-- `os.path.join` for two posix components, as used at pipeline.py line 90. -/
def osPathJoin (a b : String) : String :=
  if b.startsWith "/" then b
  else if a = "" then b
  else if a.endsWith "/" then a ++ b
  else a ++ "/" ++ b

/-- One row of the image-data csv file: column 0 is the image file name,
column 1 the label (pipeline.py lines 90 and 100). -/
structure TableRow (Lab : Type) where
  path : String
  label : Lab
deriving DecidableEq, Repr

/-- `DatasetMapper` state after a successful `__init__` (pipeline.py lines 41-64):
`image_data_file` holds the rows of the parsed csv, `preprocessor` is the external
preprocessor's `get`, and `teacher_func` is the teacher function or Python `None`. -/
structure DatasetMapper (Img Lab : Type) where
  root_dir : String
  image_data_file : List (TableRow Lab)
  preprocessor : String → Img
  teacher_func : Option (Img → Lab)

/-- `DatasetMapper.__len__` (lines 66-71): the row count of the backing table. -/
def DatasetMapper.size {Img Lab : Type} (d : DatasetMapper Img Lab) : Nat :=
  d.image_data_file.length

/-- `DatasetMapper.__getitem__` (lines 73-102).  An out-of-range index makes
`iloc` raise (modelled as `none`); otherwise the processed image is fetched from
the preprocessor and the label comes from the teacher function when one is
supplied, else from column 1 of the row. -/
def DatasetMapper.getitem {Img Lab : Type} (d : DatasetMapper Img Lab) (idx : Nat) :
    Option (Img × Lab) :=
  match d.image_data_file.get? idx with
  | none => none
  | some row =>
    let img_name := osPathJoin d.root_dir row.path
    let image := d.preprocessor img_name
    let img_label : Lab :=
      match d.teacher_func with
      | some t => t image
      | none => row.label
    some (image, img_label)

/-- Number of required positional parameters of `DatasetMapper.__init__` after
`self`: `root_dir`, `image_data_file`, `preprocessor`, `teacher_func` (line 41).
The source writes `teacher_func: None`, which is a type annotation, not a
default value, so all four parameters are required. -/
def datasetMapperRequiredArgs : Nat := 4

/-- Number of positional arguments `Pipeline.__init__` passes to `DatasetMapper`
at lines 127-128: `root_dir`, `image_data_file`, `self.preprocessor`. -/
def datasetMapperArgsPassed : Nat := 3

/-- A Python call to `DatasetMapper.__init__` with `given` positional arguments:
it raises `TypeError` when fewer than the required parameters are supplied. -/
def callDatasetMapperInit (given : Nat) : Except PyError Unit :=
  if given < datasetMapperRequiredArgs then
    Except.error (PyError.typeError
      "DatasetMapper.__init__ missing 1 required positional argument: teacher_func")
  else Except.ok ()

/-- `Pipeline.__init__` (lines 106-140).  Model construction, device selection and
writer creation are external collaborator calls with no failure modelled here; the
two `DatasetMapper` constructions at lines 127-128 each pass three positional
arguments.  Construction of the loaders and writers follows the mapper calls, so a
successful run returns `()`. -/
def pipelineInit (_name : String) (_modelRef _batch_size : Nat)
    (_root_dir _image_data_file : String) (_preprocessorRef : Nat) :
    Except PyError Unit := do
  let _train_set ← callDatasetMapperInit datasetMapperArgsPassed
  let _test_set ← callDatasetMapperInit datasetMapperArgsPassed
  Except.ok ()

/-- One batch produced by a loader: a list of inputs and the matching labels. -/
structure Batch where
  xs : List Int
  ys : List ℚ
deriving DecidableEq, Repr

/-- The attributes of a constructed `Pipeline` object that `train` can see
(set in `__init__`, lines 109-140), plus `epochs`, the attribute `train`
itself sets at line 144 (`none` before the first call to `train`).  The model,
preprocessor and the two writers are opaque references; the two loaders are the
batch sequences they yield. -/
structure Pipeline where
  name : String
  model : Nat
  batch_size : Nat
  root_dir : String
  image_data_file : String
  preprocessor : Nat
  device : String
  train_loader : List Batch
  test_loader : List Batch
  train_writer : Nat
  valid_writer : Nat
  epochs : Option Nat
deriving DecidableEq, Repr

/-- A named scoring function (an element of `kwargs["score_functions"]`),
applied to the accumulated labels and predictions. -/
structure ScoreFunc where
  name : String
  func : List ℚ → List ℚ → ℚ

/-- `kwargs["save_checkpoints"]`: the epoch interval and the target path. -/
structure CheckpointCfg where
  epoch : Nat
  path : String
deriving DecidableEq, Repr

/-- The keyword arguments `Pipeline.train` reads (lines 142-294).  A `none`
field is an absent key. -/
structure TrainKwargs where
  num_epochs : Option Nat
  lr : Option ℚ
  optim : Option Nat
  lr_scheduler : Option (Nat → ℚ)
  step_size_func : Option (Nat → ℚ)
  loss_func : Option (List ℚ → List ℚ → ℚ)
  loss_func_with_grad : Option (List ℚ → List ℚ → ℚ)
  score_functions : Option (List ScoreFunc)
  save_checkpoints : Option CheckpointCfg

/-- The external numeric collaborators of `train`: the model's parameter state
at entry, its forward pass, and the effect of one `optimizer.step()` (autograd
and the optimizer are external; `optim` only selects which external optimizer
runs, its update is `optStep` either way). -/
structure TrainEnv (θ : Type) where
  params0 : θ
  forward : θ → List Int → List ℚ
  optStep : θ → Batch → θ

/-- One record of `training_log["errors"]` (lines 221-223). -/
structure TrainErrEntry where
  epoch : Nat
  step : Nat
  loss : ℚ
deriving DecidableEq, Repr

/-- One record of a `"scores"` list (lines 244-246 and 279-281). -/
structure ScoreEntry where
  epoch : Nat
  scores : List (String × ℚ)
deriving DecidableEq, Repr

/-- `training_log` (line 184): a dict with an `"errors"` and a `"scores"` list. -/
structure TrainingLog where
  errors : List TrainErrEntry
  scores : List ScoreEntry
deriving DecidableEq, Repr

/-- One `{"epoch": ..., "loss": ...}` record that line 263 tries to append. -/
structure ValErrEntry where
  epoch : Nat
  loss : ℚ
deriving DecidableEq, Repr

/-- `validation_log` (line 185): a dict with an `"errors"` and a `"scores"` list. -/
structure ValidationLog where
  errors : List ValErrEntry
  scores : List ScoreEntry
deriving DecidableEq, Repr

/-- A checkpoint bundle written by `torch.save` (lines 286-294); model and
optimizer state are external, the observable fields are kept. -/
structure Checkpoint where
  epoch : Nat
  loss : ℚ
  path : String
deriving DecidableEq, Repr

/-- The mutable state threaded through the epoch loop of `train`:
`lastLoss` is the Python local `loss` (unbound until its first assignment, which
matters for the `torch.save` at line 291), `appliedLrs` records the scheduler's
learning rate observed at the top of each epoch (line 190), `epochsStarted`
counts entered epoch iterations, and `valAccumAppends` counts executions of the
accumulator appends at lines 267-268. -/
structure LoopState (θ : Type) where
  params : θ
  lastLoss : Option ℚ
  training_log : TrainingLog
  validation_log : ValidationLog
  checkpoints : List Checkpoint
  appliedLrs : List ℚ
  epochsStarted : Nat
  valAccumAppends : Nat

/-- Loop state at entry of the epoch loop (lines 184-188). -/
def initLoopState {θ : Type} (env : TrainEnv θ) : LoopState θ :=
  ⟨env.params0, none, ⟨[], []⟩, ⟨[], []⟩, [], [], 0, 0⟩

/-- `lr` (lines 146-150): `kwargs["lr"]` when present, else `0.001`. -/
def getLr (k : TrainKwargs) : ℚ :=
  match k.lr with
  | some v => v
  | none => 1 / 1000

/-- `torch.optim.lr_scheduler.LambdaLR`: the learning rate it applies at epoch
`e` is the optimizer's base learning rate times the supplied lambda at `e`. -/
def lambdaLR (base : ℚ) (lmbda : Nat → ℚ) (e : Nat) : ℚ :=
  base * lmbda e

/-- Scheduler selection (lines 158-165): a custom scheduler instance when
`kwargs["lr_scheduler"]` is present (opaque: its lr trajectory), else a
`LambdaLR` over `kwargs["step_size_func"]` when present, else a `LambdaLR`
over `lambda e: lr`.  The result gives the learning rate applied during
epoch `e` (the scheduler is stepped once per epoch, line 233). -/
def schedLr (k : TrainKwargs) (lr : ℚ) : Nat → ℚ :=
  match k.lr_scheduler with
  | some s => s
  | none =>
    match k.step_size_func with
    | some f => lambdaLR lr f
    | none => lambdaLR lr (fun _e => lr)

/-- The result of the training-batch phase of one epoch. -/
structure TrainPhaseOut (θ : Type) where
  params : θ
  lastLoss : Option ℚ
  entries : List TrainErrEntry
  ys : List ℚ
  y_preds : List ℚ

/-- The training-batch loop of one epoch (lines 199-230): forward pass, loss
with gradients, backward pass and optimizer step (external), per-step record
appended to `training_log["errors"]`, then labels and predictions appended to
the epoch's accumulators.  `step` is set to `0` at line 199 and never
incremented in the loop body, so every record carries step `0`. -/
def runTrainBatches {θ : Type} (env : TrainEnv θ) (lwg : List ℚ → List ℚ → ℚ)
    (epoch : Nat) (batches : List Batch) (params : θ) (lastLoss : Option ℚ)
    (entries : List TrainErrEntry) (ys y_preds : List ℚ) : TrainPhaseOut θ :=
  match batches with
  | [] => ⟨params, lastLoss, entries, ys, y_preds⟩
  | b :: rest =>
    let y_pred := env.forward params b.xs
    let loss := lwg y_pred b.ys
    let params' := env.optStep params b
    let entries' := entries ++ [⟨epoch, 0, loss⟩]
    runTrainBatches env lwg epoch rest params' (some loss) entries'
      (ys ++ b.ys) (y_preds ++ y_pred)

/-- Scoring (lines 238-240 and 273-275): each configured score function applied
to the accumulated labels and predictions. -/
def computeScores (fs : List ScoreFunc) (ys y_preds : List ℚ) : List (String × ℚ) :=
  fs.map (fun s => (s.name, s.func ys y_preds))

/-- The validation loop of one epoch (lines 250-268).  For the first batch the
forward pass and the non-gradient loss are computed; then line 263 executes
`validation_log.append({...})` — but `validation_log` is the dict created at
line 185, and a Python dict has no attribute `append`, so the loop raises
`AttributeError` on its first iteration, before the writer call at line 264 and
before the accumulator appends at lines 267-268.  An empty loader raises
nothing. -/
def runValBatches {θ : Type} (env : TrainEnv θ) (lf : List ℚ → List ℚ → ℚ)
    (batches : List Batch) (params : θ) : Option PyError :=
  match batches with
  | [] => none
  | b :: _rest =>
    let y_pred := env.forward params b.xs
    let _loss := lf y_pred b.ys
    some (PyError.attributeError "dict object has no attribute append")

/-- Lines 236-246: if score functions are configured, compute the training
scores over the accumulators and append them to `training_log["scores"]`. -/
def trainScoresPhase {θ : Type} (scoreFns : Option (List ScoreFunc)) (epoch : Nat)
    (ys y_preds : List ℚ) (st : LoopState θ) : LoopState θ :=
  match scoreFns with
  | none => st
  | some fs =>
    { st with training_log :=
        { st.training_log with
            scores := st.training_log.scores ++
              [⟨epoch, computeScores fs ys y_preds⟩] } }

/-- Lines 271-281: if score functions are configured, compute the validation
scores over the accumulators and append them to `validation_log["scores"]`. -/
def valScoresPhase {θ : Type} (scoreFns : Option (List ScoreFunc)) (epoch : Nat)
    (ys y_preds : List ℚ) (st : LoopState θ) : LoopState θ :=
  match scoreFns with
  | none => st
  | some fs =>
    { st with validation_log :=
        { st.validation_log with
            scores := st.validation_log.scores ++
              [⟨epoch, computeScores fs ys y_preds⟩] } }

/-- Lines 283-294: checkpointing at the end of an epoch.
`epoch % kwargs["save_checkpoints"]["epoch"]` raises `ZeroDivisionError` when
the configured interval is `0`, and the `torch.save` payload reads the local
`loss` (line 291), unbound when no training batch has ever run. -/
def ckptPhase {θ : Type} (ckpt : Option CheckpointCfg) (epoch : Nat)
    (st : LoopState θ) : LoopState θ × Option PyError :=
  match ckpt with
  | none => (st, none)
  | some c =>
    if c.epoch = 0 then (st, some PyError.zeroDivisionError)
    else if epoch % c.epoch = 0 then
      match st.lastLoss with
      | none => (st, some (PyError.unboundLocalError "loss"))
      | some l =>
        ({ st with checkpoints := st.checkpoints ++ [⟨epoch, l, c.path⟩] }, none)
    else (st, none)

/-- The start of one epoch iteration (lines 190-230): record the scheduler lr
shown in the progress bar, reset the epoch's accumulators (lines 192-193), run
the training batches and fold their per-step records into the training log.
Returns the updated state together with the epoch's accumulated labels and
predictions. -/
def trainPhase {θ : Type} (env : TrainEnv θ) (lwg : List ℚ → List ℚ → ℚ)
    (sched : Nat → ℚ) (epoch : Nat) (batches : List Batch) (st : LoopState θ) :
    LoopState θ × List ℚ × List ℚ :=
  let st1 : LoopState θ :=
    { st with appliedLrs := st.appliedLrs ++ [sched epoch],
              epochsStarted := st.epochsStarted + 1 }
  let tb := runTrainBatches env lwg epoch batches st1.params st1.lastLoss [] [] []
  ({ st1 with params := tb.params, lastLoss := tb.lastLoss,
              training_log :=
                { st1.training_log with
                    errors := st1.training_log.errors ++ tb.entries } },
   tb.ys, tb.y_preds)

/-- One iteration of the epoch loop of `train` (lines 189-294), for epoch index
`epoch`: the training phase, the scheduler step (line 233, an internal counter
advance), training scores if configured, the validation loop (which raises on
any batch), then — only when no error was raised, i.e. the validation loader
was empty — validation scores over the training-only accumulators, and
checkpointing. -/
def runEpoch {θ : Type} (env : TrainEnv θ) (lwg lf : List ℚ → List ℚ → ℚ)
    (sched : Nat → ℚ) (scoreFns : Option (List ScoreFunc))
    (ckpt : Option CheckpointCfg) (p : Pipeline) (epoch : Nat)
    (st : LoopState θ) : LoopState θ × Option PyError :=
  let tp := trainPhase env lwg sched epoch p.train_loader st
  let st3 := trainScoresPhase scoreFns epoch tp.2.1 tp.2.2 tp.1
  match runValBatches env lf p.test_loader st3.params with
  | some e => (st3, some e)
  | none => ckptPhase ckpt epoch (valScoresPhase scoreFns epoch tp.2.1 tp.2.2 st3)

/-- The epoch loop `for epoch in pbar` (line 189), from epoch index `epoch`
with `fuel` iterations remaining; an uncaught error aborts the loop. -/
def runEpochs {θ : Type} (env : TrainEnv θ) (lwg lf : List ℚ → List ℚ → ℚ)
    (sched : Nat → ℚ) (scoreFns : Option (List ScoreFunc))
    (ckpt : Option CheckpointCfg) (p : Pipeline) (epoch fuel : Nat)
    (st : LoopState θ) : LoopState θ × Option PyError :=
  match fuel with
  | 0 => (st, none)
  | fuel' + 1 =>
    match runEpoch env lwg lf sched scoreFns ckpt p epoch st with
    | (st', some e) => (st', some e)
    | (st', none) => runEpochs env lwg lf sched scoreFns ckpt p (epoch + 1) fuel' st'

/-- Everything observable about a call to `Pipeline.train`: the pipeline object
afterwards, the two logs, the persisted checkpoints, the per-epoch applied
learning rates, counters, the final parameters, and the uncaught error if one
was raised (in which case the Python function never returns the logs). -/
structure TrainResult (θ : Type) where
  pipeline : Pipeline
  training_log : TrainingLog
  validation_log : ValidationLog
  checkpoints : List Checkpoint
  appliedLrs : List ℚ
  epochsStarted : Nat
  valAccumAppends : Nat
  params : θ
  error : Option PyError

/-- Package a loop state and an optional error as a `TrainResult`. -/
def mkResult {θ : Type} (p : Pipeline) (st : LoopState θ) (e : Option PyError) :
    TrainResult θ :=
  ⟨p, st.training_log, st.validation_log, st.checkpoints, st.appliedLrs,
   st.epochsStarted, st.valAccumAppends, st.params, e⟩

/-- `Pipeline.train` (lines 142-296).  The `num_epochs` assertion at line 143
comes first; on success line 144 sets the `epochs` attribute.  Then the
learning rate, the optimizer (external: custom constructor or Adam) and the
scheduler are set up, the two loss functions are asserted present (lines
168-172), and the epoch loop runs. -/
def train {θ : Type} (p : Pipeline) (env : TrainEnv θ) (k : TrainKwargs) :
    TrainResult θ :=
  match k.num_epochs with
  | none =>
    mkResult p (initLoopState env)
      (some (PyError.assertionError "Provide num_epochs in **kwargs"))
  | some n =>
    let p' : Pipeline := { p with epochs := some n }
    let lr := getLr k
    let sched := schedLr k lr
    match k.loss_func, k.loss_func_with_grad with
    | some lf, some lwg =>
      let r := runEpochs env lwg lf sched k.score_functions k.save_checkpoints
        p' 0 n (initLoopState env)
      mkResult p' r.1 r.2
    | _, _ =>
      mkResult p' (initLoopState env)
        (some (PyError.assertionError
          "loss_func and loss_func_with_grad must be present in **kwargs"))

/- Concrete fixtures used to evaluate the model on explicit inputs. -/

/-- A one-element batch with input `0` and label `0`. -/
def batch0 : Batch := ⟨[0], [0]⟩

/-- A pipeline whose loaders are both empty. -/
def pipe00 : Pipeline :=
  ⟨"run", 0, 1, "data", "labels.csv", 0, "cpu", [], [], 0, 1, none⟩

/-- A pipeline with one training batch and one validation batch. -/
def pipeTV : Pipeline :=
  ⟨"run", 0, 1, "data", "labels.csv", 0, "cpu", [batch0], [batch0], 0, 1, none⟩

/-- A pipeline with two training batches and an empty validation loader. -/
def pipeT2 : Pipeline :=
  ⟨"run", 0, 1, "data", "labels.csv", 0, "cpu", [batch0, batch0], [], 0, 1, none⟩

/-- Trivial external collaborators over a unit parameter state. -/
def envU : TrainEnv Unit := ⟨(), fun _ _ => [0], fun _ _ => ()⟩

/-- A loss function that is identically zero. -/
def zeroLoss : List ℚ → List ℚ → ℚ := fun _ _ => 0

/-- Keyword arguments with every key absent. -/
def kwNone : TrainKwargs := ⟨none, none, none, none, none, none, none, none, none⟩

/-- Minimal well-formed kwargs: one epoch and both loss functions. -/
def kwBasic : TrainKwargs :=
  { kwNone with num_epochs := some 1, loss_func := some zeroLoss,
                loss_func_with_grad := some zeroLoss }

/-- `kwBasic` plus one configured score function (it counts the labels). -/
def kwScore : TrainKwargs :=
  { kwBasic with score_functions := some [⟨"n", fun ys _ => (ys.length : ℚ)⟩] }

/-- `kwBasic` plus checkpointing every epoch. -/
def kwCk1 : TrainKwargs :=
  { kwBasic with save_checkpoints := some ⟨1, "model.pt"⟩ }

/-- `kwBasic` plus checkpointing with a zero epoch interval. -/
def kwCk0 : TrainKwargs :=
  { kwBasic with save_checkpoints := some ⟨0, "model.pt"⟩ }

/-- Three epochs, checkpointing every second epoch. -/
def kwCk2 : TrainKwargs :=
  { kwBasic with num_epochs := some 3, save_checkpoints := some ⟨2, "model.pt"⟩ }

/-- Two epochs, checkpointing with a zero epoch interval. -/
def kwCk0n2 : TrainKwargs :=
  { kwBasic with num_epochs := some 2, save_checkpoints := some ⟨0, "model.pt"⟩ }

/-- A `DatasetMapper` over one csv row, with no teacher function. -/
def dmapNoTeacher : DatasetMapper Int Int :=
  ⟨"data", [⟨"a.png", 7⟩], fun _ => 5, none⟩

/-- A `DatasetMapper` over one csv row, with a teacher function. -/
def dmapTeacher : DatasetMapper Int Int :=
  ⟨"data", [⟨"a.png", 7⟩], fun _ => 5, some (fun i => i + 1)⟩

/-- C1: `Pipeline.__init__` never completes: the first `DatasetMapper`
construction at line 127 passes three positional arguments while
`DatasetMapper.__init__` requires four (`teacher_func: None` is an annotation,
not a default), so every construction raises `TypeError` instead of building
the two mappers and their loaders. -/
theorem C1_pipeline_init_always_raises (name : String) (modelRef batch_size : Nat)
    (root_dir image_data_file : String) (preprocessorRef : Nat) :
    pipelineInit name modelRef batch_size root_dir image_data_file preprocessorRef =
      Except.error (PyError.typeError
        "DatasetMapper.__init__ missing 1 required positional argument: teacher_func") :=
  rfl

/-- C2: on a run with a non-empty validation set, `Pipeline.train` raises
`AttributeError` at the first validation batch (line 263 calls `append` on the
dict `validation_log`); no validation loss is recorded and the logs are never
returned. -/
theorem C2_validation_append_attribute_error :
    (train pipeTV envU kwBasic).error =
        some (PyError.attributeError "dict object has no attribute append") ∧
      (train pipeTV envU kwBasic).validation_log.errors = [] :=
  ⟨rfl, rfl⟩

/-- C3 counterexample: with no scheduler kwargs and the default learning rate,
the applied learning rate of the first (and only) epoch is `0.001 * 0.001`,
not the configured `0.001`: the fallback `LambdaLR(optimizer, lambda e: lr)`
multiplies the optimizer's base rate `lr` by the lambda's value `lr`. -/
theorem C3_counterexample_default_lr :
    (train pipe00 envU kwBasic).appliedLrs = [(1 / 1000 : ℚ) * (1 / 1000)] ∧
      (1 / 1000 : ℚ) * (1 / 1000) ≠ (1 / 1000 : ℚ) := by
  refine ⟨rfl, ?_⟩
  norm_num

/-- C5 counterexample: with interval `1` and a non-empty validation loader,
no checkpoint is persisted at the end of epoch `0` even though `0 % 1 = 0`:
the `AttributeError` from the validation loop aborts epoch `0` before the
checkpoint code at lines 283-294 is reached. -/
theorem C5_counterexample_crash_before_checkpoint :
    ¬ ((∃ c ∈ (train pipeTV envU kwCk1).checkpoints, c.epoch = 0) ↔ 0 % 1 = 0) := by
  decide

/-- C7 counterexample: with one training batch, one validation batch and a
configured score function, no validation prediction or label is ever appended
to the epoch's accumulators and no validation score is computed: `train`
aborts with `AttributeError` at the first validation batch, before the appends
at lines 267-268. -/
theorem C7_counterexample_no_validation_accumulation :
    (train pipeTV envU kwScore).valAccumAppends = 0 ∧
      (train pipeTV envU kwScore).validation_log.scores = [] ∧
      (train pipeTV envU kwScore).error =
        some (PyError.attributeError "dict object has no attribute append") :=
  ⟨rfl, rfl, rfl⟩

/-- C8 counterexample: with two training batches in one epoch, both per-step
records carry step index `0` (`step` is initialized at line 199 and never
incremented), so the recorded step indices do not strictly increase within the
epoch. -/
theorem C8_counterexample_step_never_increments :
    ¬ List.Pairwise
        (fun a b : TrainErrEntry =>
          a.epoch < b.epoch ∨ (a.epoch = b.epoch ∧ a.step < b.step))
        (train pipeT2 envU kwBasic).training_log.errors := by
  decide

/-- C9 counterexample: `train` mutates the pipeline's `epochs` attribute
(line 144 runs `self.epochs = kwargs["num_epochs"]`), so not every attribute
other than the model parameters and the log accumulators is unchanged. -/
theorem C9_counterexample_epochs_attribute_mutated :
    (train pipe00 envU kwBasic).pipeline.epochs ≠ pipe00.epochs := by
  decide

/-- C10 counterexample: with a zero checkpoint interval and a non-empty
validation loader, `train` raises `AttributeError` at the first validation
batch, not a modulo-by-zero error at the end of the first epoch: the
validation crash preempts the checkpoint code. -/
theorem C10_counterexample_attribute_error_preempts :
    (train pipeTV envU kwCk0).error =
        some (PyError.attributeError "dict object has no attribute append") ∧
      some (PyError.attributeError "dict object has no attribute append") ≠
        some PyError.zeroDivisionError := by
  refine ⟨rfl, ?_⟩
  decide

/- Invariant lemmas about the phases of one epoch. -/

@[simp] theorem trainScoresPhase_params {θ : Type} (s : Option (List ScoreFunc))
    (e : Nat) (ys yp : List ℚ) (st : LoopState θ) :
    (trainScoresPhase s e ys yp st).params = st.params := by
  cases s <;> rfl

@[simp] theorem trainScoresPhase_lastLoss {θ : Type} (s : Option (List ScoreFunc))
    (e : Nat) (ys yp : List ℚ) (st : LoopState θ) :
    (trainScoresPhase s e ys yp st).lastLoss = st.lastLoss := by
  cases s <;> rfl

@[simp] theorem trainScoresPhase_train_errors {θ : Type} (s : Option (List ScoreFunc))
    (e : Nat) (ys yp : List ℚ) (st : LoopState θ) :
    (trainScoresPhase s e ys yp st).training_log.errors = st.training_log.errors := by
  cases s <;> rfl

@[simp] theorem trainScoresPhase_validation_log {θ : Type} (s : Option (List ScoreFunc))
    (e : Nat) (ys yp : List ℚ) (st : LoopState θ) :
    (trainScoresPhase s e ys yp st).validation_log = st.validation_log := by
  cases s <;> rfl

@[simp] theorem trainScoresPhase_checkpoints {θ : Type} (s : Option (List ScoreFunc))
    (e : Nat) (ys yp : List ℚ) (st : LoopState θ) :
    (trainScoresPhase s e ys yp st).checkpoints = st.checkpoints := by
  cases s <;> rfl

@[simp] theorem trainScoresPhase_appliedLrs {θ : Type} (s : Option (List ScoreFunc))
    (e : Nat) (ys yp : List ℚ) (st : LoopState θ) :
    (trainScoresPhase s e ys yp st).appliedLrs = st.appliedLrs := by
  cases s <;> rfl

@[simp] theorem trainScoresPhase_epochsStarted {θ : Type} (s : Option (List ScoreFunc))
    (e : Nat) (ys yp : List ℚ) (st : LoopState θ) :
    (trainScoresPhase s e ys yp st).epochsStarted = st.epochsStarted := by
  cases s <;> rfl

@[simp] theorem trainScoresPhase_valAccumAppends {θ : Type} (s : Option (List ScoreFunc))
    (e : Nat) (ys yp : List ℚ) (st : LoopState θ) :
    (trainScoresPhase s e ys yp st).valAccumAppends = st.valAccumAppends := by
  cases s <;> rfl

@[simp] theorem valScoresPhase_params {θ : Type} (s : Option (List ScoreFunc))
    (e : Nat) (ys yp : List ℚ) (st : LoopState θ) :
    (valScoresPhase s e ys yp st).params = st.params := by
  cases s <;> rfl

@[simp] theorem valScoresPhase_lastLoss {θ : Type} (s : Option (List ScoreFunc))
    (e : Nat) (ys yp : List ℚ) (st : LoopState θ) :
    (valScoresPhase s e ys yp st).lastLoss = st.lastLoss := by
  cases s <;> rfl

@[simp] theorem valScoresPhase_training_log {θ : Type} (s : Option (List ScoreFunc))
    (e : Nat) (ys yp : List ℚ) (st : LoopState θ) :
    (valScoresPhase s e ys yp st).training_log = st.training_log := by
  cases s <;> rfl

@[simp] theorem valScoresPhase_validation_errors {θ : Type} (s : Option (List ScoreFunc))
    (e : Nat) (ys yp : List ℚ) (st : LoopState θ) :
    (valScoresPhase s e ys yp st).validation_log.errors = st.validation_log.errors := by
  cases s <;> rfl

@[simp] theorem valScoresPhase_checkpoints {θ : Type} (s : Option (List ScoreFunc))
    (e : Nat) (ys yp : List ℚ) (st : LoopState θ) :
    (valScoresPhase s e ys yp st).checkpoints = st.checkpoints := by
  cases s <;> rfl

@[simp] theorem valScoresPhase_appliedLrs {θ : Type} (s : Option (List ScoreFunc))
    (e : Nat) (ys yp : List ℚ) (st : LoopState θ) :
    (valScoresPhase s e ys yp st).appliedLrs = st.appliedLrs := by
  cases s <;> rfl

@[simp] theorem valScoresPhase_epochsStarted {θ : Type} (s : Option (List ScoreFunc))
    (e : Nat) (ys yp : List ℚ) (st : LoopState θ) :
    (valScoresPhase s e ys yp st).epochsStarted = st.epochsStarted := by
  cases s <;> rfl

@[simp] theorem valScoresPhase_valAccumAppends {θ : Type} (s : Option (List ScoreFunc))
    (e : Nat) (ys yp : List ℚ) (st : LoopState θ) :
    (valScoresPhase s e ys yp st).valAccumAppends = st.valAccumAppends := by
  cases s <;> rfl

@[simp] theorem ckptPhase_params {θ : Type} (c : Option CheckpointCfg) (e : Nat)
    (st : LoopState θ) : (ckptPhase c e st).1.params = st.params := by
  unfold ckptPhase
  repeat' split
  all_goals rfl

@[simp] theorem ckptPhase_lastLoss {θ : Type} (c : Option CheckpointCfg) (e : Nat)
    (st : LoopState θ) : (ckptPhase c e st).1.lastLoss = st.lastLoss := by
  unfold ckptPhase
  repeat' split
  all_goals rfl

@[simp] theorem ckptPhase_training_log {θ : Type} (c : Option CheckpointCfg) (e : Nat)
    (st : LoopState θ) : (ckptPhase c e st).1.training_log = st.training_log := by
  unfold ckptPhase
  repeat' split
  all_goals rfl

@[simp] theorem ckptPhase_validation_log {θ : Type} (c : Option CheckpointCfg) (e : Nat)
    (st : LoopState θ) : (ckptPhase c e st).1.validation_log = st.validation_log := by
  unfold ckptPhase
  repeat' split
  all_goals rfl

@[simp] theorem ckptPhase_appliedLrs {θ : Type} (c : Option CheckpointCfg) (e : Nat)
    (st : LoopState θ) : (ckptPhase c e st).1.appliedLrs = st.appliedLrs := by
  unfold ckptPhase
  repeat' split
  all_goals rfl

@[simp] theorem ckptPhase_epochsStarted {θ : Type} (c : Option CheckpointCfg) (e : Nat)
    (st : LoopState θ) : (ckptPhase c e st).1.epochsStarted = st.epochsStarted := by
  unfold ckptPhase
  repeat' split
  all_goals rfl

@[simp] theorem ckptPhase_valAccumAppends {θ : Type} (c : Option CheckpointCfg) (e : Nat)
    (st : LoopState θ) : (ckptPhase c e st).1.valAccumAppends = st.valAccumAppends := by
  unfold ckptPhase
  repeat' split
  all_goals rfl

theorem ckptPhase_none_checkpoints {θ : Type} (e : Nat) (st : LoopState θ) :
    (ckptPhase none e st).1.checkpoints = st.checkpoints := rfl

theorem ckptPhase_error_not_assertion {θ : Type} (c : Option CheckpointCfg) (e : Nat)
    (st : LoopState θ) (m : String) :
    (ckptPhase c e st).2 ≠ some (PyError.assertionError m) := by
  unfold ckptPhase
  repeat' split
  all_goals simp

@[simp] theorem trainPhase_params {θ : Type} (env : TrainEnv θ)
    (lwg : List ℚ → List ℚ → ℚ) (sched : Nat → ℚ) (epoch : Nat)
    (bs : List Batch) (st : LoopState θ) :
    (trainPhase env lwg sched epoch bs st).1.params =
      (runTrainBatches env lwg epoch bs st.params st.lastLoss [] [] []).params := rfl

@[simp] theorem trainPhase_lastLoss {θ : Type} (env : TrainEnv θ)
    (lwg : List ℚ → List ℚ → ℚ) (sched : Nat → ℚ) (epoch : Nat)
    (bs : List Batch) (st : LoopState θ) :
    (trainPhase env lwg sched epoch bs st).1.lastLoss =
      (runTrainBatches env lwg epoch bs st.params st.lastLoss [] [] []).lastLoss := rfl

@[simp] theorem trainPhase_train_errors {θ : Type} (env : TrainEnv θ)
    (lwg : List ℚ → List ℚ → ℚ) (sched : Nat → ℚ) (epoch : Nat)
    (bs : List Batch) (st : LoopState θ) :
    (trainPhase env lwg sched epoch bs st).1.training_log.errors =
      st.training_log.errors ++
        (runTrainBatches env lwg epoch bs st.params st.lastLoss [] [] []).entries := rfl

@[simp] theorem trainPhase_train_scores {θ : Type} (env : TrainEnv θ)
    (lwg : List ℚ → List ℚ → ℚ) (sched : Nat → ℚ) (epoch : Nat)
    (bs : List Batch) (st : LoopState θ) :
    (trainPhase env lwg sched epoch bs st).1.training_log.scores =
      st.training_log.scores := rfl

@[simp] theorem trainPhase_validation_log {θ : Type} (env : TrainEnv θ)
    (lwg : List ℚ → List ℚ → ℚ) (sched : Nat → ℚ) (epoch : Nat)
    (bs : List Batch) (st : LoopState θ) :
    (trainPhase env lwg sched epoch bs st).1.validation_log = st.validation_log := rfl

@[simp] theorem trainPhase_checkpoints {θ : Type} (env : TrainEnv θ)
    (lwg : List ℚ → List ℚ → ℚ) (sched : Nat → ℚ) (epoch : Nat)
    (bs : List Batch) (st : LoopState θ) :
    (trainPhase env lwg sched epoch bs st).1.checkpoints = st.checkpoints := rfl

@[simp] theorem trainPhase_appliedLrs {θ : Type} (env : TrainEnv θ)
    (lwg : List ℚ → List ℚ → ℚ) (sched : Nat → ℚ) (epoch : Nat)
    (bs : List Batch) (st : LoopState θ) :
    (trainPhase env lwg sched epoch bs st).1.appliedLrs =
      st.appliedLrs ++ [sched epoch] := rfl

@[simp] theorem trainPhase_epochsStarted {θ : Type} (env : TrainEnv θ)
    (lwg : List ℚ → List ℚ → ℚ) (sched : Nat → ℚ) (epoch : Nat)
    (bs : List Batch) (st : LoopState θ) :
    (trainPhase env lwg sched epoch bs st).1.epochsStarted =
      st.epochsStarted + 1 := rfl

@[simp] theorem trainPhase_valAccumAppends {θ : Type} (env : TrainEnv θ)
    (lwg : List ℚ → List ℚ → ℚ) (sched : Nat → ℚ) (epoch : Nat)
    (bs : List Batch) (st : LoopState θ) :
    (trainPhase env lwg sched epoch bs st).1.valAccumAppends =
      st.valAccumAppends := rfl

/- Invariant lemmas about one whole epoch. -/

theorem runEpoch_valAccumAppends {θ : Type} (env : TrainEnv θ)
    (lwg lf : List ℚ → List ℚ → ℚ) (sched : Nat → ℚ)
    (scoreFns : Option (List ScoreFunc)) (ckpt : Option CheckpointCfg)
    (p : Pipeline) (epoch : Nat) (st : LoopState θ) :
    (runEpoch env lwg lf sched scoreFns ckpt p epoch st).1.valAccumAppends =
      st.valAccumAppends := by
  unfold runEpoch
  dsimp only
  split <;> simp

theorem runEpoch_epochsStarted {θ : Type} (env : TrainEnv θ)
    (lwg lf : List ℚ → List ℚ → ℚ) (sched : Nat → ℚ)
    (scoreFns : Option (List ScoreFunc)) (ckpt : Option CheckpointCfg)
    (p : Pipeline) (epoch : Nat) (st : LoopState θ) :
    (runEpoch env lwg lf sched scoreFns ckpt p epoch st).1.epochsStarted =
      st.epochsStarted + 1 := by
  unfold runEpoch
  dsimp only
  split <;> simp

theorem runEpoch_appliedLrs {θ : Type} (env : TrainEnv θ)
    (lwg lf : List ℚ → List ℚ → ℚ) (sched : Nat → ℚ)
    (scoreFns : Option (List ScoreFunc)) (ckpt : Option CheckpointCfg)
    (p : Pipeline) (epoch : Nat) (st : LoopState θ) :
    (runEpoch env lwg lf sched scoreFns ckpt p epoch st).1.appliedLrs =
      st.appliedLrs ++ [sched epoch] := by
  unfold runEpoch
  dsimp only
  split <;> simp

theorem runEpoch_validation_errors {θ : Type} (env : TrainEnv θ)
    (lwg lf : List ℚ → List ℚ → ℚ) (sched : Nat → ℚ)
    (scoreFns : Option (List ScoreFunc)) (ckpt : Option CheckpointCfg)
    (p : Pipeline) (epoch : Nat) (st : LoopState θ) :
    (runEpoch env lwg lf sched scoreFns ckpt p epoch st).1.validation_log.errors =
      st.validation_log.errors := by
  unfold runEpoch
  dsimp only
  split <;> simp

theorem runValBatches_none_or_attr {θ : Type} (env : TrainEnv θ)
    (lf : List ℚ → List ℚ → ℚ) (bs : List Batch) (params : θ) :
    runValBatches env lf bs params = none ∨
      runValBatches env lf bs params =
        some (PyError.attributeError "dict object has no attribute append") := by
  cases bs with
  | nil => exact Or.inl rfl
  | cons b rest => exact Or.inr rfl

theorem runEpoch_error_not_assertion {θ : Type} (env : TrainEnv θ)
    (lwg lf : List ℚ → List ℚ → ℚ) (sched : Nat → ℚ)
    (scoreFns : Option (List ScoreFunc)) (ckpt : Option CheckpointCfg)
    (p : Pipeline) (epoch : Nat) (st : LoopState θ) (m : String) :
    (runEpoch env lwg lf sched scoreFns ckpt p epoch st).2 ≠
      some (PyError.assertionError m) := by
  unfold runEpoch
  dsimp only
  split
  next e heq =>
    rcases runValBatches_none_or_attr env lf p.test_loader _ with h | h
    · rw [heq] at h
      cases h
    · rw [heq] at h
      injection h with h'
      subst h'
      simp
  next heq => exact ckptPhase_error_not_assertion _ _ _ _

/- Lemmas about the training-batch loop. -/

theorem runTrainBatches_entries_mem {θ : Type} (env : TrainEnv θ)
    (lwg : List ℚ → List ℚ → ℚ) (epoch : Nat) :
    ∀ (bs : List Batch) (params : θ) (ll : Option ℚ) (acc : List TrainErrEntry)
      (ys yp : List ℚ) (a : TrainErrEntry),
      a ∈ (runTrainBatches env lwg epoch bs params ll acc ys yp).entries →
      a ∈ acc ∨ (a.epoch = epoch ∧ a.step = 0) := by
  intro bs
  induction bs with
  | nil =>
    intro params ll acc ys yp a ha
    simp only [runTrainBatches] at ha
    exact Or.inl ha
  | cons b rest ih =>
    intro params ll acc ys yp a ha
    simp only [runTrainBatches] at ha
    rcases ih _ _ _ _ _ a ha with h | h
    · rcases List.mem_append.1 h with h' | h'
      · exact Or.inl h'
      · rcases List.mem_singleton.1 h' with rfl
        exact Or.inr ⟨rfl, rfl⟩
    · exact Or.inr h

theorem runTrainBatches_lastLoss_some {θ : Type} (env : TrainEnv θ)
    (lwg : List ℚ → List ℚ → ℚ) (epoch : Nat) :
    ∀ (bs : List Batch) (params : θ) (l : ℚ) (acc : List TrainErrEntry)
      (ys yp : List ℚ),
      (runTrainBatches env lwg epoch bs params (some l) acc ys yp).lastLoss.isSome := by
  intro bs
  induction bs with
  | nil =>
    intro params l acc ys yp
    rfl
  | cons b rest ih =>
    intro params l acc ys yp
    simp only [runTrainBatches]
    exact ih _ _ _ _ _

theorem runTrainBatches_ne_nil_lastLoss_some {θ : Type} (env : TrainEnv θ)
    (lwg : List ℚ → List ℚ → ℚ) (epoch : Nat) (bs : List Batch) (hbs : bs ≠ [])
    (params : θ) (ll : Option ℚ) (acc : List TrainErrEntry) (ys yp : List ℚ) :
    (runTrainBatches env lwg epoch bs params ll acc ys yp).lastLoss.isSome := by
  cases bs with
  | nil => exact absurd rfl hbs
  | cons b rest =>
    simp only [runTrainBatches]
    exact runTrainBatches_lastLoss_some env lwg epoch rest _ _ _ _ _

/- Further epoch-level lemmas. -/

theorem runEpoch_training_errors {θ : Type} (env : TrainEnv θ)
    (lwg lf : List ℚ → List ℚ → ℚ) (sched : Nat → ℚ)
    (scoreFns : Option (List ScoreFunc)) (ckpt : Option CheckpointCfg)
    (p : Pipeline) (epoch : Nat) (st : LoopState θ) :
    (runEpoch env lwg lf sched scoreFns ckpt p epoch st).1.training_log.errors =
      st.training_log.errors ++
        (runTrainBatches env lwg epoch p.train_loader st.params st.lastLoss
          [] [] []).entries := by
  unfold runEpoch
  dsimp only
  split <;> simp

theorem runEpoch_lastLoss {θ : Type} (env : TrainEnv θ)
    (lwg lf : List ℚ → List ℚ → ℚ) (sched : Nat → ℚ)
    (scoreFns : Option (List ScoreFunc)) (ckpt : Option CheckpointCfg)
    (p : Pipeline) (epoch : Nat) (st : LoopState θ) :
    (runEpoch env lwg lf sched scoreFns ckpt p epoch st).1.lastLoss =
      (runTrainBatches env lwg epoch p.train_loader st.params st.lastLoss
        [] [] []).lastLoss := by
  unfold runEpoch
  dsimp only
  split <;> simp

theorem runEpoch_checkpoints_ckpt_none {θ : Type} (env : TrainEnv θ)
    (lwg lf : List ℚ → List ℚ → ℚ) (sched : Nat → ℚ)
    (scoreFns : Option (List ScoreFunc)) (p : Pipeline) (epoch : Nat)
    (st : LoopState θ) :
    (runEpoch env lwg lf sched scoreFns none p epoch st).1.checkpoints =
      st.checkpoints := by
  unfold runEpoch
  dsimp only
  split <;> simp [ckptPhase]

theorem runEpoch_val_nonempty {θ : Type} (env : TrainEnv θ)
    (lwg lf : List ℚ → List ℚ → ℚ) (sched : Nat → ℚ)
    (scoreFns : Option (List ScoreFunc)) (ckpt : Option CheckpointCfg)
    (p : Pipeline) (epoch : Nat) (st : LoopState θ) (hv : p.test_loader ≠ []) :
    (runEpoch env lwg lf sched scoreFns ckpt p epoch st).2 =
        some (PyError.attributeError "dict object has no attribute append") ∧
      (runEpoch env lwg lf sched scoreFns ckpt p epoch st).1.validation_log =
        st.validation_log ∧
      (runEpoch env lwg lf sched scoreFns ckpt p epoch st).1.checkpoints =
        st.checkpoints := by
  obtain ⟨b, rest, hb⟩ := List.exists_cons_of_ne_nil hv
  unfold runEpoch
  dsimp only
  simp only [hb, runValBatches]
  simp

theorem ckptPhase_pos_interval {θ : Type} (kk : Nat) (path : String) (hk : kk ≠ 0)
    (e : Nat) (st : LoopState θ) (hl : st.lastLoss.isSome) :
    (ckptPhase (some ⟨kk, path⟩) e st).2 = none ∧
      (ckptPhase (some ⟨kk, path⟩) e st).1.checkpoints.map (fun c => c.epoch) =
        st.checkpoints.map (fun c => c.epoch) ++
          (if e % kk = 0 then [e] else []) := by
  obtain ⟨l, hll⟩ := Option.isSome_iff_exists.1 hl
  simp only [ckptPhase, hll]
  split
  next h0 => exact absurd h0 hk
  next h0 =>
    split
    next hmod => simp [hmod]
    next hmod => simp [hmod]

theorem runEpoch_cadence {θ : Type} (env : TrainEnv θ)
    (lwg lf : List ℚ → List ℚ → ℚ) (sched : Nat → ℚ)
    (scoreFns : Option (List ScoreFunc)) (p : Pipeline) (epoch : Nat)
    (st : LoopState θ) (kk : Nat) (path : String) (hk : kk ≠ 0)
    (hv : p.test_loader = []) (ht : p.train_loader ≠ []) :
    (runEpoch env lwg lf sched scoreFns (some ⟨kk, path⟩) p epoch st).2 = none ∧
      (runEpoch env lwg lf sched scoreFns (some ⟨kk, path⟩) p epoch st).1.checkpoints.map
          (fun c => c.epoch) =
        st.checkpoints.map (fun c => c.epoch) ++
          (if epoch % kk = 0 then [epoch] else []) := by
  unfold runEpoch
  dsimp only
  simp only [hv, runValBatches]
  have hl :
      (valScoresPhase scoreFns epoch
          (trainPhase env lwg sched epoch p.train_loader st).2.1
          (trainPhase env lwg sched epoch p.train_loader st).2.2
          (trainScoresPhase scoreFns epoch
            (trainPhase env lwg sched epoch p.train_loader st).2.1
            (trainPhase env lwg sched epoch p.train_loader st).2.2
            (trainPhase env lwg sched epoch p.train_loader st).1)).lastLoss.isSome := by
    simp only [valScoresPhase_lastLoss, trainScoresPhase_lastLoss, trainPhase_lastLoss]
    exact runTrainBatches_ne_nil_lastLoss_some env lwg epoch p.train_loader ht _ _ _ _ _
  have hc := ckptPhase_pos_interval kk path hk epoch _ hl
  refine ⟨hc.1, ?_⟩
  rw [hc.2]
  simp

theorem runEpoch_zero_interval {θ : Type} (env : TrainEnv θ)
    (lwg lf : List ℚ → List ℚ → ℚ) (sched : Nat → ℚ)
    (scoreFns : Option (List ScoreFunc)) (p : Pipeline) (epoch : Nat)
    (st : LoopState θ) (path : String) (hv : p.test_loader = []) :
    (runEpoch env lwg lf sched scoreFns (some ⟨0, path⟩) p epoch st).2 =
        some PyError.zeroDivisionError ∧
      (runEpoch env lwg lf sched scoreFns (some ⟨0, path⟩) p epoch st).1.checkpoints =
        st.checkpoints := by
  unfold runEpoch
  dsimp only
  simp only [hv, runValBatches]
  simp [ckptPhase]

/- Lemmas about the epoch loop. -/

theorem runEpochs_valAccumAppends {θ : Type} (env : TrainEnv θ)
    (lwg lf : List ℚ → List ℚ → ℚ) (sched : Nat → ℚ)
    (scoreFns : Option (List ScoreFunc)) (ckpt : Option CheckpointCfg)
    (p : Pipeline) :
    ∀ (fuel epoch : Nat) (st : LoopState θ),
      (runEpochs env lwg lf sched scoreFns ckpt p epoch fuel st).1.valAccumAppends =
        st.valAccumAppends := by
  intro fuel
  induction fuel with
  | zero =>
    intro e st
    rfl
  | succ f ih =>
    intro e st
    unfold runEpochs
    rcases h : runEpoch env lwg lf sched scoreFns ckpt p e st with ⟨st', err⟩
    have hva := runEpoch_valAccumAppends env lwg lf sched scoreFns ckpt p e st
    rw [h] at hva
    cases err with
    | some e' =>
      dsimp only
      exact hva
    | none =>
      dsimp only
      rw [ih (e + 1) st']
      exact hva

theorem runEpochs_error_not_assertion {θ : Type} (env : TrainEnv θ)
    (lwg lf : List ℚ → List ℚ → ℚ) (sched : Nat → ℚ)
    (scoreFns : Option (List ScoreFunc)) (ckpt : Option CheckpointCfg)
    (p : Pipeline) :
    ∀ (fuel epoch : Nat) (st : LoopState θ) (m : String),
      (runEpochs env lwg lf sched scoreFns ckpt p epoch fuel st).2 ≠
        some (PyError.assertionError m) := by
  intro fuel
  induction fuel with
  | zero =>
    intro e st m hc
    exact Option.noConfusion hc
  | succ f ih =>
    intro e st m
    unfold runEpochs
    rcases h : runEpoch env lwg lf sched scoreFns ckpt p e st with ⟨st', err⟩
    have hna := runEpoch_error_not_assertion env lwg lf sched scoreFns ckpt p e st m
    rw [h] at hna
    cases err with
    | some e' =>
      dsimp only
      exact hna
    | none =>
      dsimp only
      exact ih (e + 1) st' m

theorem runEpochs_validation_errors {θ : Type} (env : TrainEnv θ)
    (lwg lf : List ℚ → List ℚ → ℚ) (sched : Nat → ℚ)
    (scoreFns : Option (List ScoreFunc)) (ckpt : Option CheckpointCfg)
    (p : Pipeline) :
    ∀ (fuel epoch : Nat) (st : LoopState θ),
      (runEpochs env lwg lf sched scoreFns ckpt p epoch fuel st).1.validation_log.errors =
        st.validation_log.errors := by
  intro fuel
  induction fuel with
  | zero =>
    intro e st
    rfl
  | succ f ih =>
    intro e st
    unfold runEpochs
    rcases h : runEpoch env lwg lf sched scoreFns ckpt p e st with ⟨st', err⟩
    have hve := runEpoch_validation_errors env lwg lf sched scoreFns ckpt p e st
    rw [h] at hve
    cases err with
    | some e' =>
      dsimp only
      exact hve
    | none =>
      dsimp only
      rw [ih (e + 1) st']
      exact hve

theorem runEpochs_appliedLrs_replicate {θ : Type} (env : TrainEnv θ)
    (lwg lf : List ℚ → List ℚ → ℚ) (sched : Nat → ℚ)
    (scoreFns : Option (List ScoreFunc)) (ckpt : Option CheckpointCfg)
    (p : Pipeline) (c : ℚ) (hsched : ∀ e, sched e = c) :
    ∀ (fuel epoch : Nat) (st : LoopState θ),
      st.appliedLrs = List.replicate st.epochsStarted c →
      (runEpochs env lwg lf sched scoreFns ckpt p epoch fuel st).1.appliedLrs =
        List.replicate
          (runEpochs env lwg lf sched scoreFns ckpt p epoch fuel st).1.epochsStarted c := by
  intro fuel
  induction fuel with
  | zero =>
    intro e st hst
    exact hst
  | succ f ih =>
    intro e st hst
    unfold runEpochs
    rcases h : runEpoch env lwg lf sched scoreFns ckpt p e st with ⟨st', err⟩
    have hlr := runEpoch_appliedLrs env lwg lf sched scoreFns ckpt p e st
    have hes := runEpoch_epochsStarted env lwg lf sched scoreFns ckpt p e st
    rw [h] at hlr hes
    have hst' : st'.appliedLrs = List.replicate st'.epochsStarted c := by
      rw [hlr, hes, hst, hsched, List.replicate_succ']
    cases err with
    | some e' =>
      dsimp only
      exact hst'
    | none =>
      dsimp only
      exact ih (e + 1) st' hst'

theorem runEpochs_training_errors_sorted {θ : Type} (env : TrainEnv θ)
    (lwg lf : List ℚ → List ℚ → ℚ) (sched : Nat → ℚ)
    (scoreFns : Option (List ScoreFunc)) (ckpt : Option CheckpointCfg)
    (p : Pipeline) :
    ∀ (fuel epoch : Nat) (st : LoopState θ),
      (∀ a ∈ st.training_log.errors, a.epoch < epoch ∧ a.step = 0) →
      List.Pairwise (fun a b : TrainErrEntry => a.epoch ≤ b.epoch)
        st.training_log.errors →
      ((∀ a ∈ (runEpochs env lwg lf sched scoreFns ckpt p epoch fuel
            st).1.training_log.errors, a.epoch < epoch + fuel ∧ a.step = 0) ∧
        List.Pairwise (fun a b : TrainErrEntry => a.epoch ≤ b.epoch)
          (runEpochs env lwg lf sched scoreFns ckpt p epoch fuel
            st).1.training_log.errors) := by
  intro fuel
  induction fuel with
  | zero =>
    intro e st hb hp
    exact ⟨fun a ha => ⟨(hb a ha).1.trans_le (Nat.le_add_right e 0), (hb a ha).2⟩, hp⟩
  | succ f ih =>
    intro e st hb hp
    unfold runEpochs
    rcases h : runEpoch env lwg lf sched scoreFns ckpt p e st with ⟨st', err⟩
    have herr := runEpoch_training_errors env lwg lf sched scoreFns ckpt p e st
    rw [h] at herr
    have hnew : ∀ a ∈ (runTrainBatches env lwg e p.train_loader st.params st.lastLoss
        [] [] []).entries, a.epoch = e ∧ a.step = 0 := by
      intro a ha
      rcases runTrainBatches_entries_mem env lwg e p.train_loader st.params st.lastLoss
          [] [] [] a ha with hmem | hok
      · cases hmem
      · exact hok
    have hb' : ∀ a ∈ st'.training_log.errors, a.epoch < e + 1 ∧ a.step = 0 := by
      intro a ha
      rw [herr] at ha
      rcases List.mem_append.1 ha with h1 | h2
      · exact ⟨Nat.lt_succ_of_lt (hb a h1).1, (hb a h1).2⟩
      · exact ⟨(hnew a h2).1 ▸ Nat.lt_succ_self e, (hnew a h2).2⟩
    have hp' : List.Pairwise (fun a b : TrainErrEntry => a.epoch ≤ b.epoch)
        st'.training_log.errors := by
      rw [herr]
      refine List.pairwise_append.2 ⟨hp, ?_, ?_⟩
      · exact List.pairwise_of_forall_mem_list
          (fun a ha b hbm => ((hnew a ha).1.trans (hnew b hbm).1.symm).le)
      · intro a ha b hbm
        exact ((hb a ha).1.le.trans (hnew b hbm).1.ge)
    cases err with
    | some e' =>
      dsimp only
      refine ⟨fun a ha => ⟨?_, (hb' a ha).2⟩, hp'⟩
      have := (hb' a ha).1
      omega
    | none =>
      dsimp only
      have hres := ih (e + 1) st' hb' hp'
      refine ⟨fun a ha => ⟨?_, (hres.1 a ha).2⟩, hres.2⟩
      have := (hres.1 a ha).1
      omega

theorem runEpochs_checkpoints_ckpt_none {θ : Type} (env : TrainEnv θ)
    (lwg lf : List ℚ → List ℚ → ℚ) (sched : Nat → ℚ)
    (scoreFns : Option (List ScoreFunc)) (p : Pipeline) :
    ∀ (fuel epoch : Nat) (st : LoopState θ),
      (runEpochs env lwg lf sched scoreFns none p epoch fuel st).1.checkpoints =
        st.checkpoints := by
  intro fuel
  induction fuel with
  | zero =>
    intro e st
    rfl
  | succ f ih =>
    intro e st
    unfold runEpochs
    rcases h : runEpoch env lwg lf sched scoreFns none p e st with ⟨st', err⟩
    have hck := runEpoch_checkpoints_ckpt_none env lwg lf sched scoreFns p e st
    rw [h] at hck
    cases err with
    | some e' =>
      dsimp only
      exact hck
    | none =>
      dsimp only
      rw [ih (e + 1) st']
      exact hck

theorem runEpochs_cadence {θ : Type} (env : TrainEnv θ)
    (lwg lf : List ℚ → List ℚ → ℚ) (sched : Nat → ℚ)
    (scoreFns : Option (List ScoreFunc)) (p : Pipeline) (kk : Nat) (path : String)
    (hk : kk ≠ 0) (hv : p.test_loader = []) (ht : p.train_loader ≠ []) :
    ∀ (fuel epoch : Nat) (st : LoopState θ),
      (runEpochs env lwg lf sched scoreFns (some ⟨kk, path⟩) p epoch fuel st).2 =
          none ∧
        (runEpochs env lwg lf sched scoreFns (some ⟨kk, path⟩) p epoch fuel
              st).1.checkpoints.map (fun c => c.epoch) =
          st.checkpoints.map (fun c => c.epoch) ++
            (List.range' epoch fuel).filter (fun e => e % kk = 0) := by
  intro fuel
  induction fuel with
  | zero =>
    intro e st
    exact ⟨rfl, by simp [runEpochs]⟩
  | succ f ih =>
    intro e st
    unfold runEpochs
    rcases h : runEpoch env lwg lf sched scoreFns (some ⟨kk, path⟩) p e st
      with ⟨st', err⟩
    have hc := runEpoch_cadence env lwg lf sched scoreFns p e st kk path hk hv ht
    rw [h] at hc
    cases err with
    | some e' =>
      exact absurd hc.1 (by simp)
    | none =>
      dsimp only
      have hres := ih (e + 1) st'
      refine ⟨hres.1, ?_⟩
      rw [hres.2, hc.2, List.range'_succ, List.filter_cons, List.append_assoc]
      by_cases hmod : e % kk = 0
      · simp [hmod]
      · simp [hmod]

theorem runEpochs_val_nonempty {θ : Type} (env : TrainEnv θ)
    (lwg lf : List ℚ → List ℚ → ℚ) (sched : Nat → ℚ)
    (scoreFns : Option (List ScoreFunc)) (ckpt : Option CheckpointCfg)
    (p : Pipeline) (hv : p.test_loader ≠ []) (f e : Nat) (st : LoopState θ) :
    (runEpochs env lwg lf sched scoreFns ckpt p e (f + 1) st).2 =
        some (PyError.attributeError "dict object has no attribute append") ∧
      (runEpochs env lwg lf sched scoreFns ckpt p e (f + 1)
          st).1.validation_log = st.validation_log ∧
      (runEpochs env lwg lf sched scoreFns ckpt p e (f + 1)
          st).1.epochsStarted = st.epochsStarted + 1 := by
  unfold runEpochs
  rcases h : runEpoch env lwg lf sched scoreFns ckpt p e st with ⟨st', err⟩
  have hvn := runEpoch_val_nonempty env lwg lf sched scoreFns ckpt p e st hv
  have hes := runEpoch_epochsStarted env lwg lf sched scoreFns ckpt p e st
  rw [h] at hvn hes
  rcases hvn with ⟨h1, h2, _h3⟩
  cases err with
  | some e' =>
    dsimp only at h1 ⊢
    injection h1 with h1'
    subst h1'
    exact ⟨rfl, h2, hes⟩
  | none =>
    exact Option.noConfusion h1

theorem runEpochs_zero_interval {θ : Type} (env : TrainEnv θ)
    (lwg lf : List ℚ → List ℚ → ℚ) (sched : Nat → ℚ)
    (scoreFns : Option (List ScoreFunc)) (p : Pipeline) (path : String)
    (hv : p.test_loader = []) (f e : Nat) (st : LoopState θ) :
    (runEpochs env lwg lf sched scoreFns (some ⟨0, path⟩) p e (f + 1) st).2 =
        some PyError.zeroDivisionError ∧
      (runEpochs env lwg lf sched scoreFns (some ⟨0, path⟩) p e (f + 1)
          st).1.checkpoints = st.checkpoints ∧
      (runEpochs env lwg lf sched scoreFns (some ⟨0, path⟩) p e (f + 1)
          st).1.epochsStarted = st.epochsStarted + 1 := by
  unfold runEpochs
  rcases h : runEpoch env lwg lf sched scoreFns (some ⟨0, path⟩) p e st
    with ⟨st', err⟩
  have hzi := runEpoch_zero_interval env lwg lf sched scoreFns p e st path hv
  have hes := runEpoch_epochsStarted env lwg lf sched scoreFns (some ⟨0, path⟩) p e st
  rw [h] at hzi hes
  rcases hzi with ⟨h1, h2⟩
  cases err with
  | some e' =>
    dsimp only at h1 ⊢
    injection h1 with h1'
    subst h1'
    exact ⟨rfl, h2, hes⟩
  | none =>
    exact Option.noConfusion h1

/- Characterization of `train` when the three required kwargs are present. -/

theorem train_wf_eq {θ : Type} (p : Pipeline) (env : TrainEnv θ) (k : TrainKwargs)
    (n : Nat) (lf lwg : List ℚ → List ℚ → ℚ) (hn : k.num_epochs = some n)
    (hlf : k.loss_func = some lf) (hlwg : k.loss_func_with_grad = some lwg) :
    train p env k =
      mkResult { p with epochs := some n }
        (runEpochs env lwg lf (schedLr k (getLr k)) k.score_functions
          k.save_checkpoints { p with epochs := some n } 0 n (initLoopState env)).1
        (runEpochs env lwg lf (schedLr k (getLr k)) k.score_functions
          k.save_checkpoints { p with epochs := some n } 0 n (initLoopState env)).2 := by
  unfold train
  rw [hn, hlf, hlwg]

/-- C4: `Pipeline.train` fails with an assertion error — before entering any
epoch, with nothing logged and nothing checkpointed — whenever `num_epochs`,
`loss_func` or `loss_func_with_grad` is missing from the kwargs; when all three
are present, neither assertion fires (the run never raises an assertion
error). -/
theorem C4_missing_kwargs_assert (θ : Type) (p : Pipeline) (env : TrainEnv θ)
    (k : TrainKwargs) :
    ((k.num_epochs = none ∨ k.loss_func = none ∨ k.loss_func_with_grad = none) →
      (∃ m, (train p env k).error = some (PyError.assertionError m)) ∧
        (train p env k).epochsStarted = 0 ∧
        (train p env k).training_log = ⟨[], []⟩ ∧
        (train p env k).checkpoints = []) ∧
    (k.num_epochs ≠ none → k.loss_func ≠ none → k.loss_func_with_grad ≠ none →
      ∀ m, (train p env k).error ≠ some (PyError.assertionError m)) := by
  constructor
  · intro hmiss
    rcases hn : k.num_epochs with _ | n
    · unfold train
      rw [hn]
      exact ⟨⟨"Provide num_epochs in **kwargs", rfl⟩, rfl, rfl, rfl⟩
    · rcases hlf : k.loss_func with _ | lf
      · rcases hlwg : k.loss_func_with_grad with _ | lwg
        · unfold train
          rw [hn, hlf, hlwg]
          exact ⟨⟨"loss_func and loss_func_with_grad must be present in **kwargs", rfl⟩,
            rfl, rfl, rfl⟩
        · unfold train
          rw [hn, hlf, hlwg]
          exact ⟨⟨"loss_func and loss_func_with_grad must be present in **kwargs", rfl⟩,
            rfl, rfl, rfl⟩
      · rcases hlwg : k.loss_func_with_grad with _ | lwg
        · unfold train
          rw [hn, hlf, hlwg]
          exact ⟨⟨"loss_func and loss_func_with_grad must be present in **kwargs", rfl⟩,
            rfl, rfl, rfl⟩
        · rcases hmiss with h | h | h
          · rw [hn] at h
            exact Option.noConfusion h
          · rw [hlf] at h
            exact Option.noConfusion h
          · rw [hlwg] at h
            exact Option.noConfusion h
  · intro hn' hlf' hlwg' m
    obtain ⟨n, hn⟩ := Option.ne_none_iff_exists'.1 hn'
    obtain ⟨lf, hlf⟩ := Option.ne_none_iff_exists'.1 hlf'
    obtain ⟨lwg, hlwg⟩ := Option.ne_none_iff_exists'.1 hlwg'
    rw [train_wf_eq p env k n lf lwg hn hlf hlwg]
    exact runEpochs_error_not_assertion env lwg lf (schedLr k (getLr k))
      k.score_functions k.save_checkpoints { p with epochs := some n } n 0
      (initLoopState env) m

/-- C4 witness: with all kwargs absent the run stops on an assertion with
nothing trained; with the three required kwargs present no assertion fires. -/
theorem C4_missing_kwargs_assert_witness :
    ((∃ m, (train pipe00 envU kwNone).error = some (PyError.assertionError m)) ∧
      (train pipe00 envU kwNone).epochsStarted = 0 ∧
      (train pipe00 envU kwNone).training_log = ⟨[], []⟩ ∧
      (train pipe00 envU kwNone).checkpoints = []) ∧
    (train pipe00 envU kwBasic).error ≠
      some (PyError.assertionError "Provide num_epochs in **kwargs") :=
  ⟨(C4_missing_kwargs_assert Unit pipe00 envU kwNone).1 (Or.inl rfl),
   (C4_missing_kwargs_assert Unit pipe00 envU kwBasic).2 (by decide)
     (by simp [kwBasic, kwNone]) (by simp [kwBasic, kwNone])
     "Provide num_epochs in **kwargs"⟩

/-- C3 amended: with neither a custom scheduler nor a step-size function
supplied, the fallback schedule is constant across epochs, but at the square of
the configured learning rate: every applied learning rate equals
`getLr k * getLr k` (so `1e-6` under the default `0.001`), because
`LambdaLR(optimizer, lambda e: lr)` multiplies the base rate `lr` by the
lambda's value `lr`. -/
theorem C3_fallback_lr_squared (θ : Type) (p : Pipeline) (env : TrainEnv θ)
    (k : TrainKwargs) (h1 : k.lr_scheduler = none) (h2 : k.step_size_func = none) :
    (train p env k).appliedLrs =
      List.replicate (train p env k).epochsStarted (getLr k * getLr k) := by
  have hsched : ∀ e, schedLr k (getLr k) e = getLr k * getLr k := by
    intro e
    simp [schedLr, h1, h2, lambdaLR]
  rcases hn : k.num_epochs with _ | n
  · unfold train
    rw [hn]
    rfl
  · rcases hlf : k.loss_func with _ | lf
    · rcases hlwg : k.loss_func_with_grad with _ | lwg
      · unfold train
        rw [hn, hlf, hlwg]
        rfl
      · unfold train
        rw [hn, hlf, hlwg]
        rfl
    · rcases hlwg : k.loss_func_with_grad with _ | lwg
      · unfold train
        rw [hn, hlf, hlwg]
        rfl
      · rw [train_wf_eq p env k n lf lwg hn hlf hlwg]
        exact runEpochs_appliedLrs_replicate env lwg lf (schedLr k (getLr k))
          k.score_functions k.save_checkpoints { p with epochs := some n }
          (getLr k * getLr k) hsched n 0 (initLoopState env) rfl

/-- C3 witness: a concrete run with the fallback schedule, where every applied
learning rate is the square of the configured one. -/
theorem C3_fallback_lr_squared_witness :
    (train pipe00 envU kwBasic).appliedLrs =
      List.replicate (train pipe00 envU kwBasic).epochsStarted
        (getLr kwBasic * getLr kwBasic) :=
  C3_fallback_lr_squared Unit pipe00 envU kwBasic rfl rfl

/-- C5 amended: with checkpointing unconfigured no checkpoint is ever written;
with a configured positive interval `kk`, in runs that actually reach the end
of each epoch (an empty validation loader — otherwise the validation
`AttributeError` aborts the epoch first — and a non-empty training loader, so
the `loss` local is bound), `train` completes and the persisted checkpoint
epochs are exactly the epochs `e < n` with `e % kk = 0`. -/
theorem C5_checkpoint_cadence (θ : Type) :
    (∀ (p : Pipeline) (env : TrainEnv θ) (k : TrainKwargs),
        k.save_checkpoints = none → (train p env k).checkpoints = []) ∧
    (∀ (p : Pipeline) (env : TrainEnv θ) (k : TrainKwargs) (n kk : Nat)
        (path : String) (lf lwg : List ℚ → List ℚ → ℚ),
        k.num_epochs = some n → k.loss_func = some lf →
        k.loss_func_with_grad = some lwg →
        k.save_checkpoints = some ⟨kk, path⟩ → kk ≠ 0 →
        p.test_loader = [] → p.train_loader ≠ [] →
        (train p env k).error = none ∧
          (train p env k).checkpoints.map (fun c => c.epoch) =
            (List.range n).filter (fun e => e % kk = 0)) := by
  constructor
  · intro p env k hck
    rcases hn : k.num_epochs with _ | n
    · unfold train
      rw [hn]
      rfl
    · rcases hlf : k.loss_func with _ | lf
      · rcases hlwg : k.loss_func_with_grad with _ | lwg
        · unfold train
          rw [hn, hlf, hlwg]
          rfl
        · unfold train
          rw [hn, hlf, hlwg]
          rfl
      · rcases hlwg : k.loss_func_with_grad with _ | lwg
        · unfold train
          rw [hn, hlf, hlwg]
          rfl
        · rw [train_wf_eq p env k n lf lwg hn hlf hlwg, hck]
          exact (runEpochs_checkpoints_ckpt_none env lwg lf (schedLr k (getLr k))
            k.score_functions { p with epochs := some n } n 0
            (initLoopState env)).trans rfl
  · intro p env k n kk path lf lwg hn hlf hlwg hck hkk hv ht
    rw [train_wf_eq p env k n lf lwg hn hlf hlwg, hck]
    have h := runEpochs_cadence env lwg lf (schedLr k (getLr k)) k.score_functions
      { p with epochs := some n } kk path hkk hv ht n 0 (initLoopState env)
    exact ⟨h.1, h.2.trans (by simp [initLoopState, List.range_eq_range'])⟩

/-- C5 witness: no checkpoint without configuration; with interval 2 over
3 epochs (empty validation loader), checkpoints at epochs 0 and 2 exactly. -/
theorem C5_checkpoint_cadence_witness :
    (train pipeT2 envU kwBasic).checkpoints = [] ∧
      ((train pipeT2 envU kwCk2).error = none ∧
        (train pipeT2 envU kwCk2).checkpoints.map (fun c => c.epoch) =
          (List.range 3).filter (fun e => e % 2 = 0)) :=
  ⟨(C5_checkpoint_cadence Unit).1 pipeT2 envU kwBasic rfl,
   (C5_checkpoint_cadence Unit).2 pipeT2 envU kwCk2 3 2 "model.pt" zeroLoss zeroLoss
     rfl rfl rfl rfl (by decide) rfl (by decide)⟩

/-- C6: for every valid index, `DatasetMapper.__getitem__` returns the
preprocessed image of the row's joined path, paired with the teacher function
applied to that processed image when a teacher is supplied, and with the
label column of the row otherwise. -/
theorem C6_getitem_contract {Img Lab : Type} (d : DatasetMapper Img Lab)
    (idx : Nat) (h : idx < d.size) :
    (d.teacher_func = none →
      d.getitem idx =
        some (d.preprocessor (osPathJoin d.root_dir
            (d.image_data_file.get ⟨idx, h⟩).path),
          (d.image_data_file.get ⟨idx, h⟩).label)) ∧
    (∀ t, d.teacher_func = some t →
      d.getitem idx =
        some (d.preprocessor (osPathJoin d.root_dir
            (d.image_data_file.get ⟨idx, h⟩).path),
          t (d.preprocessor (osPathJoin d.root_dir
            (d.image_data_file.get ⟨idx, h⟩).path)))) := by
  have hrow : d.image_data_file.get? idx = some (d.image_data_file.get ⟨idx, h⟩) :=
    List.get?_eq_get h
  constructor
  · intro ht
    unfold DatasetMapper.getitem
    rw [hrow, ht]
  · intro t ht
    unfold DatasetMapper.getitem
    rw [hrow, ht]

/-- C6 witness: the concrete mappers, one without and one with a teacher. -/
theorem C6_getitem_contract_witness :
    dmapNoTeacher.getitem 0 =
        some (dmapNoTeacher.preprocessor (osPathJoin "data" "a.png"), (7 : Int)) ∧
      dmapTeacher.getitem 0 =
        some (dmapTeacher.preprocessor (osPathJoin "data" "a.png"),
          dmapTeacher.preprocessor (osPathJoin "data" "a.png") + 1) :=
  ⟨(C6_getitem_contract dmapNoTeacher 0 (by decide)).1 rfl,
   (C6_getitem_contract dmapTeacher 0 (by decide)).2 (fun i => i + 1) rfl⟩

/-- C7 amended: the accumulator appends of the validation phase never execute
(`valAccumAppends` stays `0` in every run), because on any validation batch
`train` aborts with `AttributeError` while recording the batch's loss, before
the appends; consequently, in a run with a non-empty validation loader no
validation score is ever computed. -/
theorem C7_validation_accumulator (θ : Type) (p : Pipeline) (env : TrainEnv θ)
    (k : TrainKwargs) :
    (train p env k).valAccumAppends = 0 ∧
      (∀ (n : Nat) (lf lwg : List ℚ → List ℚ → ℚ),
        k.num_epochs = some n → 0 < n → k.loss_func = some lf →
        k.loss_func_with_grad = some lwg → p.test_loader ≠ [] →
        (train p env k).error =
            some (PyError.attributeError "dict object has no attribute append") ∧
          (train p env k).validation_log.scores = []) := by
  constructor
  · rcases hn : k.num_epochs with _ | n
    · unfold train
      rw [hn]
      rfl
    · rcases hlf : k.loss_func with _ | lf
      · rcases hlwg : k.loss_func_with_grad with _ | lwg
        · unfold train
          rw [hn, hlf, hlwg]
          rfl
        · unfold train
          rw [hn, hlf, hlwg]
          rfl
      · rcases hlwg : k.loss_func_with_grad with _ | lwg
        · unfold train
          rw [hn, hlf, hlwg]
          rfl
        · rw [train_wf_eq p env k n lf lwg hn hlf hlwg]
          exact (runEpochs_valAccumAppends env lwg lf (schedLr k (getLr k))
            k.score_functions k.save_checkpoints { p with epochs := some n } n 0
            (initLoopState env)).trans rfl
  · intro n lf lwg hn hpos hlf hlwg hv
    rw [train_wf_eq p env k n lf lwg hn hlf hlwg]
    obtain ⟨f, rfl⟩ : ∃ f, n = f + 1 := ⟨n - 1, by omega⟩
    have h := runEpochs_val_nonempty env lwg lf (schedLr k (getLr k))
      k.score_functions k.save_checkpoints { p with epochs := some (f + 1) } hv f 0
      (initLoopState env)
    refine ⟨h.1, ?_⟩
    have hs := congrArg ValidationLog.scores h.2.1
    exact hs.trans rfl

/-- C7 witness: a run with one training and one validation batch, in which
nothing is ever appended by the validation phase and no validation score
exists. -/
theorem C7_validation_accumulator_witness :
    (train pipeTV envU kwBasic).valAccumAppends = 0 ∧
      ((train pipeTV envU kwBasic).error =
          some (PyError.attributeError "dict object has no attribute append") ∧
        (train pipeTV envU kwBasic).validation_log.scores = []) :=
  ⟨(C7_validation_accumulator Unit pipeTV envU kwBasic).1,
   (C7_validation_accumulator Unit pipeTV envU kwBasic).2 1 zeroLoss zeroLoss rfl
     (by decide) rfl rfl (by decide)⟩

/-- C8 amended: across every run, the training log's per-step records have
non-decreasing epoch indices, and every recorded step index is `0` (the `step`
counter of the batch loop is initialized once and never incremented), so the
step indices do not strictly increase within an epoch with two or more
batches. -/
theorem C8_training_log_order (θ : Type) (p : Pipeline) (env : TrainEnv θ)
    (k : TrainKwargs) :
    List.Pairwise (fun a b : TrainErrEntry => a.epoch ≤ b.epoch)
        (train p env k).training_log.errors ∧
      (train p env k).training_log.errors.map (fun a => a.step) =
        List.replicate (train p env k).training_log.errors.length 0 := by
  have key : List.Pairwise (fun a b : TrainErrEntry => a.epoch ≤ b.epoch)
        (train p env k).training_log.errors ∧
      ∀ a ∈ (train p env k).training_log.errors, a.step = 0 := by
    rcases hn : k.num_epochs with _ | n
    · unfold train
      rw [hn]
      exact ⟨List.Pairwise.nil, fun a ha => absurd ha (List.not_mem_nil a)⟩
    · rcases hlf : k.loss_func with _ | lf
      · rcases hlwg : k.loss_func_with_grad with _ | lwg
        · unfold train
          rw [hn, hlf, hlwg]
          exact ⟨List.Pairwise.nil, fun a ha => absurd ha (List.not_mem_nil a)⟩
        · unfold train
          rw [hn, hlf, hlwg]
          exact ⟨List.Pairwise.nil, fun a ha => absurd ha (List.not_mem_nil a)⟩
      · rcases hlwg : k.loss_func_with_grad with _ | lwg
        · unfold train
          rw [hn, hlf, hlwg]
          exact ⟨List.Pairwise.nil, fun a ha => absurd ha (List.not_mem_nil a)⟩
        · rw [train_wf_eq p env k n lf lwg hn hlf hlwg]
          have h := runEpochs_training_errors_sorted env lwg lf (schedLr k (getLr k))
            k.score_functions k.save_checkpoints { p with epochs := some n } n 0
            (initLoopState env) (fun a ha => absurd ha (List.not_mem_nil a))
            List.Pairwise.nil
          exact ⟨h.2, fun a ha => (h.1 a ha).2⟩
  refine ⟨key.1, ?_⟩
  rw [← List.length_map (train p env k).training_log.errors (fun a => a.step)]
  exact List.eq_replicate_length.2 (by
    intro b hb
    obtain ⟨a, ha, rfl⟩ := List.mem_map.1 hb
    exact key.2 a ha)

/-- C9 amended: `train` leaves every attribute of the pipeline object unchanged
except `epochs`, which it sets to the supplied `num_epochs` (when the
`num_epochs` assertion passes; with `num_epochs` absent the attribute is
untouched). -/
theorem C9_train_frame (θ : Type) (p : Pipeline) (env : TrainEnv θ)
    (k : TrainKwargs) :
    ((train p env k).pipeline.name = p.name ∧
      (train p env k).pipeline.model = p.model ∧
      (train p env k).pipeline.batch_size = p.batch_size ∧
      (train p env k).pipeline.root_dir = p.root_dir ∧
      (train p env k).pipeline.image_data_file = p.image_data_file ∧
      (train p env k).pipeline.preprocessor = p.preprocessor ∧
      (train p env k).pipeline.device = p.device ∧
      (train p env k).pipeline.train_loader = p.train_loader ∧
      (train p env k).pipeline.test_loader = p.test_loader ∧
      (train p env k).pipeline.train_writer = p.train_writer ∧
      (train p env k).pipeline.valid_writer = p.valid_writer) ∧
    (∀ n, k.num_epochs = some n → (train p env k).pipeline.epochs = some n) ∧
    (k.num_epochs = none → (train p env k).pipeline.epochs = p.epochs) := by
  rcases hn : k.num_epochs with _ | n
  · unfold train
    rw [hn]
    exact ⟨⟨rfl, rfl, rfl, rfl, rfl, rfl, rfl, rfl, rfl, rfl, rfl⟩,
      fun n' h => Option.noConfusion h, fun _ => rfl⟩
  · rcases hlf : k.loss_func with _ | lf <;>
      rcases hlwg : k.loss_func_with_grad with _ | lwg
    all_goals
      unfold train
      rw [hn, hlf, hlwg]
      exact ⟨⟨rfl, rfl, rfl, rfl, rfl, rfl, rfl, rfl, rfl, rfl, rfl⟩,
        fun n' h => by cases h; rfl, fun h => Option.noConfusion h⟩

/-- C9 witness: a concrete run where the loaders are untouched and `epochs`
becomes the supplied value. -/
theorem C9_train_frame_witness :
    (train pipeTV envU kwBasic).pipeline.test_loader = pipeTV.test_loader ∧
      (train pipeTV envU kwBasic).pipeline.epochs = some 1 :=
  ⟨(C9_train_frame Unit pipeTV envU kwBasic).1.2.2.2.2.2.2.2.2.1,
   (C9_train_frame Unit pipeTV envU kwBasic).2.1 1 rfl⟩

/-- C10 amended: with a configured zero checkpoint interval, in runs that reach
the end of the first epoch (empty validation loader), `train` raises a
modulo-by-zero error at the end of epoch 0 instead of skipping checkpointing:
no checkpoint is written and no second epoch starts. -/
theorem C10_zero_interval_mod_crash (θ : Type) (p : Pipeline) (env : TrainEnv θ)
    (k : TrainKwargs) (n : Nat) (path : String) (lf lwg : List ℚ → List ℚ → ℚ)
    (hn : k.num_epochs = some n) (hpos : 0 < n) (hlf : k.loss_func = some lf)
    (hlwg : k.loss_func_with_grad = some lwg) (hv : p.test_loader = [])
    (hck : k.save_checkpoints = some ⟨0, path⟩) :
    (train p env k).error = some PyError.zeroDivisionError ∧
      (train p env k).checkpoints = [] ∧
      (train p env k).epochsStarted = 1 := by
  rw [train_wf_eq p env k n lf lwg hn hlf hlwg, hck]
  obtain ⟨f, rfl⟩ : ∃ f, n = f + 1 := ⟨n - 1, by omega⟩
  have h := runEpochs_zero_interval env lwg lf (schedLr k (getLr k))
    k.score_functions { p with epochs := some (f + 1) } path hv f 0
    (initLoopState env)
  exact ⟨h.1, h.2.1.trans rfl, h.2.2.trans rfl⟩

/-- C10 witness: a concrete run with interval 0, an empty validation loader and
two configured epochs: modulo-by-zero at the end of epoch 0. -/
theorem C10_zero_interval_mod_crash_witness :
    (train pipeT2 envU kwCk0n2).error = some PyError.zeroDivisionError ∧
      (train pipeT2 envU kwCk0n2).checkpoints = [] ∧
      (train pipeT2 envU kwCk0n2).epochsStarted = 1 :=
  C10_zero_interval_mod_crash Unit pipeT2 envU kwCk0n2 2 "model.pt" zeroLoss zeroLoss
    rfl (by decide) rfl rfl rfl rfl

end FaceRec
